import Mathlib

/-!
Verification development for the SISEOA multi-building appliance controller
(`src/Iot/rpi_appliance_controller.py`).  The Python functions relevant to the
claims are shallowly embedded as executable Lean definitions: time is measured
in minutes (naturals for the pattern miner, rationals for the actuator so that
arbitrary durations are expressible), Python dicts become association lists or
functions into `Option`, Python sets become `Finset String`, and Firestore
writes that are internal to the modelled state (event log, daily usage,
automation state) are threaded explicitly while purely external writes
(RTDB status mirrors, print logging) are dropped.
-/

namespace SISEOA

/-- Configuration constant MINIMUM_STAGE_GAP_MINUTES from the source. -/
def MINIMUM_STAGE_GAP_MINUTES : Nat := 15

/-- Configuration constant MAX_EVENT_HISTORY from the source. -/
def MAX_EVENT_HISTORY : Nat := 30

/-- Configuration constant MAX_STAGES_PER_DAY from the source. -/
def MAX_STAGES_PER_DAY : Nat := 3

/-- Configuration constant periodic_interval_minutes from the source. -/
def periodic_interval_minutes : ℚ := 3

/-- An entry of a device's `eventHistory` collection as the pattern miner sees
it: a status string ("ON"/"OFF") and a timestamp in whole minutes since an
epoch that falls on a Monday midnight.  The `hour` field stored by
`log_device_event` always equals `now.hour`, so it is derived from the
timestamp here rather than stored separately. -/
structure MEvent where
  status : String
  timestamp : Nat
deriving Repr, DecidableEq

/-- Day-of-week name of a day index, epoch day 0 being a Monday
(models `timestamp.strftime("%A")`). -/
def dayName (n : Nat) : String :=
  if n = 0 then "Monday"
  else if n = 1 then "Tuesday"
  else if n = 2 then "Wednesday"
  else if n = 3 then "Thursday"
  else if n = 4 then "Friday"
  else if n = 5 then "Saturday"
  else "Sunday"

/-- Hour-of-day of an event (models the stored `hour` field / `now.hour`). -/
def hourOf (e : MEvent) : Nat := e.timestamp / 60 % 24

/-- Day name of an event (models `timestamp.strftime("%A")`). -/
def dayOf (e : MEvent) : String := dayName (e.timestamp / 1440 % 7)

/-- Insert an event into a timestamp-sorted list (helper for the model of
Python's `sorted(events, key=lambda x: x.get('timestamp'))`). -/
def insertByTs (e : MEvent) : List MEvent → List MEvent
  | [] => [e]
  | f :: rest => if e.timestamp ≤ f.timestamp then e :: f :: rest else f :: insertByTs e rest

/-- Sort events by timestamp (models Python `sorted` by timestamp). -/
def sortByTimestamp : List MEvent → List MEvent
  | [] => []
  | e :: rest => insertByTs e (sortByTimestamp rest)

/-- Loop body of `group_events_into_sessions`: walk the sorted events keeping
the current session in reverse order (head = most recent event, mirroring
`current_session[-1]`); a session is flushed when the gap to the next event
exceeds the threshold, and only kept when it has at least two events
(`len(current_session) >= 2`). -/
def sessionsAux (gap_minutes : Nat) : List MEvent → List MEvent → List (List MEvent)
  | [], current => if 2 ≤ current.length then [current.reverse] else []
  | e :: rest, current =>
    match current with
    | [] => sessionsAux gap_minutes rest [e]
    | last :: _ =>
      if e.timestamp - last.timestamp ≤ gap_minutes then
        sessionsAux gap_minutes rest (e :: current)
      else
        (if 2 ≤ current.length then [current.reverse] else []) ++ sessionsAux gap_minutes rest [e]

/-- Model of `group_events_into_sessions(events, gap_minutes)`. -/
def group_events_into_sessions (events : List MEvent) (gap_minutes : Nat) : List (List MEvent) :=
  sessionsAux gap_minutes (sortByTimestamp events) []

/-- First element with minimal timestamp (models Python `min(..., key=timestamp)`,
which keeps the earliest-iterated element on ties). -/
def firstMinTs : MEvent → List MEvent → MEvent
  | best, [] => best
  | best, e :: rest => firstMinTs (if e.timestamp < best.timestamp then e else best) rest

/-- First element with maximal timestamp (models Python `max(..., key=timestamp)`). -/
def firstMaxTs : MEvent → List MEvent → MEvent
  | best, [] => best
  | best, e :: rest => firstMaxTs (if best.timestamp < e.timestamp then e else best) rest

/-- Two-digit hour string with ":00" suffix (models `f"{hour:02d}:00"`). -/
def hourStr (h : Nat) : String :=
  (if h < 10 then "0" ++ toString h else toString h) ++ ":00"

/-- One stage of a day schedule.  Field `stop` models the source key `"end"`
(`end` is reserved in Lean). -/
structure Stage where
  start : String
  stop : String
deriving Repr, DecidableEq

/-- Stage extracted from one session in `analyze_device_patterns_multi_stage`:
first ON to last OFF, dropped when degenerate (`start_time != end_time`)
or when the session lacks an ON or an OFF event. -/
def stageOfSession (session : List MEvent) : Option Stage :=
  match session.filter (fun e => e.status = "ON"), session.filter (fun e => e.status = "OFF") with
  | on0 :: onRest, off0 :: offRest =>
    let session_start := firstMinTs on0 onRest
    let session_end := firstMaxTs off0 offRest
    let start_time := hourStr (hourOf session_start)
    let end_time := hourStr (hourOf session_end)
    if start_time ≠ end_time then some ⟨start_time, end_time⟩ else none
  | _, _ => none

/-- Append an event to its day's bucket, preserving first-seen day order
(models the `defaultdict(list)` insertion order of `daily_patterns`). -/
def insertEventDay (d : String) (e : MEvent) : List (String × List MEvent) → List (String × List MEvent)
  | [] => [(d, [e])]
  | (k, es) :: rest => if k = d then (k, es ++ [e]) :: rest else (k, es) :: insertEventDay d e rest

/-- Group events by day name in encounter order (models `daily_patterns`). -/
def groupByDay (evs : List MEvent) : List (String × List MEvent) :=
  evs.foldl (fun acc e => insertEventDay (dayOf e) e acc) []

/-- Stages mined from one day's events. -/
def stagesForDay (day_events : List MEvent) : List Stage :=
  (group_events_into_sessions day_events MINIMUM_STAGE_GAP_MINUTES).filterMap stageOfSession

/-- Model of the `day_schedules` dict: days (in `daily_patterns` order) that
have at least two events and produced at least one stage, with their stages. -/
def daySchedulesOf (evs : List MEvent) : List (String × List Stage) :=
  (groupByDay evs).filterMap (fun p =>
    if p.2.length < 2 then none
    else
      let stages := stagesForDay p.2
      if stages = [] then none else some (p.1, stages))

/-- The distinct day names with at least one event, in first-seen order
(the set `active_days`). -/
def activeDaysOf (evs : List MEvent) : List String :=
  (groupByDay evs).map (fun p => p.1)

/-- Lexicographic strict order on character lists (code-point order, as used
by Python string comparison). -/
def charListLt : List Char → List Char → Bool
  | [], [] => false
  | [], _ :: _ => true
  | _ :: _, [] => false
  | c :: cs, d :: ds => if c < d then true else if d < c then false else charListLt cs ds

/-- Lexicographic strict order on strings (Python `<` on strings). -/
def strLt (a b : String) : Bool := charListLt a.data b.data

/-- Insert into an alphabetically sorted list of strings. -/
def insertStr (x : String) : List String → List String
  | [] => [x]
  | y :: rest => if strLt y x then y :: insertStr x rest else x :: y :: rest

/-- Alphabetical sort of day names (models Python `sorted(active_days)`). -/
def sortStrings : List String → List String
  | [] => []
  | x :: rest => insertStr x (sortStrings rest)

/-- `sorted(active_days)` from the source. -/
def sortedActiveDays (evs : List MEvent) : List String :=
  sortStrings (activeDaysOf evs)

/-- Number of raw events on a given day (`len(daily_patterns[d])`). -/
def rawCountOn (evs : List MEvent) (d : String) : Nat :=
  (evs.filter (fun e => dayOf e = d)).length

/-- First association whose key matches (models `dict.get(day)` on the
insertion-ordered `day_schedules`). -/
def lookupStages : List (String × List Stage) → String → Option (List Stage)
  | [], _ => none
  | (k, st) :: rest, day => if k = day then some st else lookupStages rest day

/-- Python `max(day_schedules.keys(), key=lambda d: len(daily_patterns[d]))`:
fold keeping the first maximal element. -/
def pickTemplate (evs : List MEvent) (p : String × List Stage) (rest : List (String × List Stage)) :
    String × List Stage :=
  rest.foldl (fun best q => if rawCountOn evs best.1 < rawCountOn evs q.1 then q else best) p

/-- A generated multi-stage rule document.  The wall-clock `createdAt` /
`lastModified` strings are omitted; the remaining fields follow the `pattern`
dict literal of the source. -/
structure Rule where
  schedules : List (String × List Stage)
  enabled : Bool
  source : String
  basedOnEvents : Nat
  multiStage : Bool
  stageGapMinutes : Nat
deriving Repr, DecidableEq

/-- Model of `analyze_device_patterns_multi_stage`, taking as input the
already-fetched 7-day event window for the device (the Firestore range query
result).  Returns `none` exactly where the source returns `None`. -/
def analyze_device_patterns_multi_stage (evs : List MEvent) : Option Rule :=
  if evs.length < 4 then none
  else
    match daySchedulesOf evs with
    | [] => none
    | p :: rest =>
      let best := pickTemplate evs p rest
      let best_stages := best.2
      some
        { schedules := (sortedActiveDays evs).map
            (fun day => (day, (lookupStages (p :: rest) day).getD best_stages)),
          enabled := false,
          source := "historical",
          basedOnEvents := evs.length,
          multiStage := true,
          stageGapMinutes := MINIMUM_STAGE_GAP_MINUTES }

/-- Model of `generate_automation_rules`: for each GPIO-configured device that
is in the building map, run the miner on its history and record the rule
document written to `AUTOMATIONRULE` (if any). -/
def generate_automation_rules (devices : List String) (mapped : String → Bool)
    (history : String → List MEvent) : List (String × Rule) :=
  devices.filterMap (fun d =>
    if mapped d then (analyze_device_patterns_multi_stage (history d)).map (fun r => (d, r))
    else none)

/-- Model of the executor's per-stage trigger: the list of actuations issued
for one stage at the current hour (the `for stage in stages` body of
`execute_multi_stage_rule`: ON on exact `start` match, else OFF on exact
`end` match). -/
def stageActions (current_hour : String) (st : Stage) : List String :=
  if current_hour = st.start then ["ON"]
  else if current_hour = st.stop then ["OFF"]
  else []

/-- Model of `execute_multi_stage_rule`: locate today's schedule entry by day
name (first match), then issue the per-stage actions in stage order. -/
def execute_multi_stage_rule (r : Rule) (current_hour current_day : String) : List String :=
  match lookupStages r.schedules current_day with
  | none => []
  | some stages => stages.flatMap (stageActions current_hour)

/-- Model of `execute_single_stage_rule` (legacy rules). -/
def execute_single_stage_rule (start stop : String) (days : List String)
    (current_hour current_day : String) : List String :=
  if current_day ∈ days then
    (if current_hour = start then ["ON"]
     else if current_hour = stop then ["OFF"]
     else [])
  else []

/-- A rule document as stored in `AUTOMATIONRULE`: either a generated
multi-stage rule or a legacy single-stage rule `{start, end, days, enabled}`. -/
inductive StoredRule where
  | multi : Rule → StoredRule
  | legacy (start stop : String) (days : List String) (enabled : Bool) : StoredRule
deriving Repr, DecidableEq

/-- `rule_data.get("enabled", False)` for a stored rule. -/
def storedEnabled : StoredRule → Bool
  | .multi r => r.enabled
  | .legacy _ _ _ e => e

/-- Per-building automation state (`building_automation_states[building_id]`). -/
structure AutomationState where
  mode : String
  locked : Finset String
  devices : List String

/-- The default automation state `{}` (`dict.get` defaults: mode `"none"`,
empty lock set, no member list). -/
def defaultAutomationState : AutomationState := ⟨"none", ∅, []⟩

/-- Actuations issued for one device on one tick of
`execute_automation_rules` (the loop body), plus the global
`if not firebase_connected: return` guard.  Skips (`continue`s) yield `[]`. -/
def execute_automation_rules_for (connected : Bool) (dBM : String → Option String)
    (bStates : String → Option AutomationState) (rules : String → Option StoredRule)
    (dev current_hour current_day : String) : List String :=
  if connected = false then []
  else
    match dBM dev with
    | none => []
    | some b =>
      let ast := (bStates b).getD defaultAutomationState
      if ast.mode ≠ "none" then []
      else if dev ∈ ast.locked then []
      else
        match rules dev with
        | none => []
        | some r =>
          if storedEnabled r = false then []
          else
            match r with
            | .multi mr =>
              if mr.multiStage = true then execute_multi_stage_rule mr current_hour current_day
              else []
            | .legacy st sp ds _ => execute_single_stage_rule st sp ds current_hour current_day

/-- Floor of a rational as an integer (numerator floor-divided by
denominator), kept explicit so that it evaluates by kernel reduction. -/
def ratFloor (x : ℚ) : ℤ := Int.fdiv x.num (x.den : ℤ)

/-- Round-half-even to an integer (the rounding mode of Python's `round`). -/
def roundHalfEven (x : ℚ) : ℤ :=
  let f := ratFloor x
  let r := x - (f : ℚ)
  if r < 1 / 2 then f
  else if 1 / 2 < r then f + 1
  else if f % 2 = 0 then f else f + 1

/-- Rounding to 6 decimal places, modelling `round(x, 6)` on exact rationals. -/
def round6 (x : ℚ) : ℚ := (roundHalfEven (x * 1000000) : ℚ) / 1000000

/-- Model of `calculate_energy(duration_min, watt)`:
`round((watt / 1000) * (duration_min / 60), 6)`. -/
def calculate_energy (duration_min : ℚ) (watt : ℚ) : ℚ :=
  round6 (watt / 1000 * (duration_min / 60))

/-- An entry of a device's event log as written by `log_device_event`
(timestamps in rational minutes, matching the actuator's clock). -/
structure LogEvent where
  status : String
  timestamp : ℚ
deriving DecidableEq

/-- Remove the first event holding the minimal timestamp (the document that
`events_ref.order_by("timestamp")` streams first). -/
def removeOldest : List LogEvent → List LogEvent
  | [] => []
  | e :: rest =>
    if ∀ f ∈ rest, e.timestamp ≤ f.timestamp then rest
    else e :: removeOldest rest

/-- Model of `log_device_event`'s store update: when the log already holds
`MAX_EVENT_HISTORY` or more entries delete the oldest, then append the new
event. -/
def log_device_event (log : List LogEvent) (e : LogEvent) : List LogEvent :=
  if MAX_EVENT_HISTORY ≤ log.length then removeOldest log ++ [e] else log ++ [e]

/-- Pointwise update of a string-keyed map. -/
def updF {α : Type} (f : String → α) (k : String) (v : α) : String → α :=
  fun x => if x = k then v else f x

/-- The controller state threaded through the actuator and automation models:
connectivity flag, topology maps, per-building automation states, the GPIO
wattage configuration (`some w` exactly for GPIO-configured devices), channel
levels, the two per-device timestamp maps, the per-device event history, and
today's `DailyUsage` value per device. -/
structure Sys where
  firebase_connected : Bool
  device_building_map : String → Option String
  device_type_map : String → Option String
  building_automation_states : String → Option AutomationState
  wattage : String → Option ℚ
  gpio : String → Bool
  device_on_timestamps : String → Option ℚ
  device_last_energy_update_time : String → Option ℚ
  eventHistory : String → List LogEvent
  dailyUsage : String → ℚ

/-- Model of `log_device_event(device_id, status)` acting on the system state:
a no-op when disconnected (and exceptions are swallowed), otherwise the
device's log gets the rolling-limit append. -/
def logEvent (s : Sys) (dev status : String) (now : ℚ) : Sys :=
  if s.firebase_connected = true then
    { s with eventHistory := updF s.eventHistory dev (log_device_event (s.eventHistory dev) ⟨status, now⟩) }
  else s

/-- Model of `update_daily_energy(device_id, energy)`: read today's cumulative
usage (0 when the document does not exist) and write back the sum. -/
def update_daily_energy (s : Sys) (dev : String) (energy : ℚ) : Sys :=
  { s with dailyUsage := updF s.dailyUsage dev (s.dailyUsage dev + energy) }

/-- Model of `switch_device(device_id, state, force)`.  Returns the success
flag together with the new state.  RTDB status mirror writes are external and
dropped; the accrual thread spawned on ON is modelled separately by
`periodic_update_tick`. -/
def switch_device (s : Sys) (now : ℚ) (device_id state : String) (force : Bool) : Bool × Sys :=
  if s.firebase_connected = false ∧ force = false then (false, s)
  else
    match s.device_building_map device_id with
    | none => (false, s)
    | some building_id =>
      let ast := (s.building_automation_states building_id).getD defaultAutomationState
      if force = false ∧ device_id ∈ ast.locked ∧ state = "ON" then (false, s)
      else
        match s.wattage device_id with
        | none => (false, s)
        | some w =>
          if state = "ON" then
            let s1 := { s with
              gpio := updF s.gpio device_id true,
              device_on_timestamps := updF s.device_on_timestamps device_id (some now),
              device_last_energy_update_time := updF s.device_last_energy_update_time device_id (some now) }
            (true, logEvent s1 device_id "ON" now)
          else if state = "OFF" then
            let on_time := s.device_on_timestamps device_id
            let last_time := s.device_last_energy_update_time device_id
            let s1 := { s with
              gpio := updF s.gpio device_id false,
              device_on_timestamps := updF s.device_on_timestamps device_id none,
              device_last_energy_update_time := updF s.device_last_energy_update_time device_id none }
            let s2 := logEvent s1 device_id "OFF" now
            match on_time, last_time with
            | some _, some lt => (true, update_daily_energy s2 device_id (calculate_energy (now - lt) w))
            | _, _ => (true, s2)
          else (true, s)

/-- One pass of the `periodic_update` accrual loop body for a device: while
the device is ON and connected, once at least `periodic_interval_minutes` have
elapsed since the last checkpoint, add the incremental energy and move the
checkpoint. -/
def periodic_update_tick (s : Sys) (now : ℚ) (dev : String) : Sys :=
  match s.device_on_timestamps dev, s.device_last_energy_update_time dev, s.wattage dev with
  | some _, some lt, some w =>
    if s.firebase_connected = true ∧ periodic_interval_minutes ≤ now - lt then
      let s1 := update_daily_energy s dev (calculate_energy (now - lt) w)
      { s1 with device_last_energy_update_time := updF s1.device_last_energy_update_time dev (some now) }
    else s
  | _, _, _ => s

/-- The intent document consumed by `apply_building_automation`:
`currentMode` plus the two known mode flags of the `modes` map. -/
structure AutomationData where
  currentMode : String
  turnOffAll : Bool
  ecoMode : Bool

/-- Replace one building's automation state. -/
def setBuilding (s : Sys) (b : String) (ast : AutomationState) : Sys :=
  { s with building_automation_states := updF s.building_automation_states b (some ast) }

/-- `automation_state["locked_devices"].add(device_id)` for a building. -/
def addLock (s : Sys) (b dev : String) : Sys :=
  match s.building_automation_states b with
  | none => s
  | some ast => setBuilding s b { ast with locked := insert dev ast.locked }

/-- `automation_state["locked_devices"].clear()` for a building. -/
def clearLocks (s : Sys) (b : String) : Sys :=
  match s.building_automation_states b with
  | none => s
  | some ast => setBuilding s b { ast with locked := ∅ }

/-- One iteration of the LOCKDOWN loop: force the device OFF, then add it to
the lock set (the RTDB lock-flag write is external). -/
def lockdownStep (now : ℚ) (b : String) (s : Sys) (dev : String) : Sys :=
  addLock (switch_device s now dev "OFF" true).2 b dev

/-- One iteration of the ECO loop: unlock in RTDB (external), then force OFF
devices whose type is "AC". -/
def ecoStep (now : ℚ) (s : Sys) (dev : String) : Sys :=
  if (s.device_type_map dev).getD "Unknown" = "AC" then (switch_device s now dev "OFF" true).2
  else s

/-- Model of `apply_building_automation(building_id, automation_data)`:
no-op when disconnected or the building is unknown; otherwise record the mode,
then run the LOCKDOWN, ECO or clear branch over the member devices. -/
def apply_building_automation (s : Sys) (now : ℚ) (building_id : String)
    (data : AutomationData) : Sys :=
  if s.firebase_connected = false then s
  else
    match s.building_automation_states building_id with
    | none => s
    | some ast =>
      let building_devices := ast.devices
      let s0 := setBuilding s building_id { ast with mode := data.currentMode }
      if data.turnOffAll = true ∨ data.currentMode = "turn-off-all" then
        building_devices.foldl (lockdownStep now building_id) s0
      else if data.ecoMode = true ∨ data.currentMode = "eco-mode" then
        building_devices.foldl (ecoStep now) (clearLocks s0 building_id)
      else
        clearLocks s0 building_id

/-- A device is resolvable for actuation: present in the building map and in
the GPIO configuration. -/
def Resolvable (s : Sys) (dev : String) : Prop :=
  (s.device_building_map dev).isSome = true ∧ (s.wattage dev).isSome = true

/-! Concrete instances used by witnesses and counterexamples. -/

/-- Three events at minutes 0, 10 and 40 (the spec's session example). -/
def ex6Events : List MEvent := [⟨"ON", 0⟩, ⟨"ON", 10⟩, ⟨"OFF", 40⟩]

/-- A 4-event window with three ON and one OFF event, all within 15-minute
gaps, spanning hours 8 and 9 of a Monday. -/
def ex5Events : List MEvent := [⟨"ON", 530⟩, ⟨"ON", 535⟩, ⟨"ON", 540⟩, ⟨"OFF", 550⟩]

/-- A window where Monday carries five ON-only events (the most raw events,
but no stage) and Tuesday carries one ON/OFF pair that yields a stage. -/
def ex7Events : List MEvent :=
  [⟨"ON", 530⟩, ⟨"ON", 535⟩, ⟨"ON", 540⟩, ⟨"ON", 545⟩, ⟨"ON", 550⟩,
   ⟨"ON", 1970⟩, ⟨"OFF", 1980⟩]

/-- A window with four disjoint ON/OFF sessions on one Monday, each more than
15 minutes apart, producing four stages for that day. -/
def ex10Events : List MEvent :=
  [⟨"ON", 110⟩, ⟨"OFF", 120⟩, ⟨"ON", 230⟩, ⟨"OFF", 240⟩,
   ⟨"ON", 350⟩, ⟨"OFF", 360⟩, ⟨"ON", 470⟩, ⟨"OFF", 480⟩]

/-- A connected one-building, one-device state with `device1` locked by a
lockdown mode. -/
def exLockedSys : Sys :=
  { firebase_connected := true
    device_building_map := fun d => if d = "device1" then some "building1" else none
    device_type_map := fun _ => some "Light"
    building_automation_states := fun b =>
      if b = "building1" then some ⟨"turn-off-all", {"device1"}, ["device1"]⟩ else none
    wattage := fun d => if d = "device1" then some 20 else none
    gpio := fun _ => false
    device_on_timestamps := fun _ => none
    device_last_energy_update_time := fun _ => none
    eventHistory := fun _ => []
    dailyUsage := fun _ => 0 }

/-- `exLockedSys` with the store marked disconnected. -/
def exOfflineSys : Sys := { exLockedSys with firebase_connected := false }

/-- A connected one-building, one-device state with no automation active and
zero accumulated usage for `device1` (wattage 20). -/
def exFreeSys : Sys :=
  { firebase_connected := true
    device_building_map := fun d => if d = "device1" then some "building1" else none
    device_type_map := fun _ => some "Light"
    building_automation_states := fun b =>
      if b = "building1" then some ⟨"none", ∅, ["device1"]⟩ else none
    wattage := fun d => if d = "device1" then some 20 else none
    gpio := fun _ => false
    device_on_timestamps := fun _ => none
    device_last_energy_update_time := fun _ => none
    eventHistory := fun _ => []
    dailyUsage := fun _ => 0 }

/-- A connected two-device building used by the lockdown witness. -/
def exBuildingSys : Sys :=
  { firebase_connected := true
    device_building_map := fun d => if d = "device1" ∨ d = "device2" then some "building1" else none
    device_type_map := fun _ => some "Light"
    building_automation_states := fun b =>
      if b = "building1" then some ⟨"none", ∅, ["device1", "device2"]⟩ else none
    wattage := fun d => if d = "device1" ∨ d = "device2" then some 20 else none
    gpio := fun _ => true
    device_on_timestamps := fun _ => some 0
    device_last_energy_update_time := fun _ => some 0
    eventHistory := fun _ => []
    dailyUsage := fun _ => 0 }

/-- The LOCKDOWN intent document (`currentMode = "turn-off-all"`). -/
def exLockdownData : AutomationData := ⟨"turn-off-all", true, false⟩

/-- An enabled multi-stage rule whose Monday schedule holds the single
degenerate stage 08:00-08:00. -/
def exDegenerateRule : Rule :=
  { schedules := [("Monday", [⟨"08:00", "08:00"⟩])]
    enabled := true
    source := "historical"
    basedOnEvents := 4
    multiStage := true
    stageGapMinutes := 15 }

/-- An enabled multi-stage rule with the Monday stage 08:00-18:00. -/
def exDayRule : Rule :=
  { schedules := [("Monday", [⟨"08:00", "18:00"⟩])]
    enabled := true
    source := "historical"
    basedOnEvents := 4
    multiStage := true
    stageGapMinutes := 15 }

/-- Building-state environment for the executor examples: one building in
mode `"none"` with nothing locked. -/
def exExecStates : String → Option AutomationState :=
  fun b => if b = "building1" then some ⟨"none", ∅, ["device1"]⟩ else none

/-- Building map for the executor examples. -/
def exExecMap : String → Option String :=
  fun d => if d = "device1" then some "building1" else none

/-- A 30-entry event log with strictly increasing timestamps. -/
def exFullLog : List LogEvent := (List.range 30).map (fun i => ⟨"ON", (i : ℚ)⟩)

/-- The rule the miner produces on `ex5Events`. -/
def ex5Rule : Rule :=
  { schedules := [("Monday", [⟨"08:00", "09:00"⟩])]
    enabled := false
    source := "historical"
    basedOnEvents := 4
    multiStage := true
    stageGapMinutes := 15 }

/-- The rule the miner produces on `ex7Events`: Monday (no stages of its own)
carries the stages of the template day Tuesday. -/
def ex7Rule : Rule :=
  { schedules := [("Monday", [⟨"08:00", "09:00"⟩]), ("Tuesday", [⟨"08:00", "09:00"⟩])]
    enabled := false
    source := "historical"
    basedOnEvents := 7
    multiStage := true
    stageGapMinutes := 15 }

/-- The rule the miner produces on `ex10Events`: four stages on Monday. -/
def ex10Rule : Rule :=
  { schedules := [("Monday",
      [⟨"01:00", "02:00"⟩, ⟨"03:00", "04:00"⟩, ⟨"05:00", "06:00"⟩, ⟨"07:00", "08:00"⟩])]
    enabled := false
    source := "historical"
    basedOnEvents := 8
    multiStage := true
    stageGapMinutes := 15 }

/-- A window holding a single event (fewer than four). -/
def exShortEvents : List MEvent := [⟨"ON", 0⟩]

/-- The template day as the claim words it: the active day with the most raw
events (first maximal in first-seen order), regardless of whether that day
produced any stages.  This follows the claim text, to be compared with the
source's choice. -/
def claimTemplateDay (evs : List MEvent) : Option String :=
  match activeDaysOf evs with
  | [] => none
  | d :: rest =>
    some (rest.foldl (fun best q => if rawCountOn evs best < rawCountOn evs q then q else best) d)

/-- Rule environment mapping `device1` to the degenerate-stage rule. -/
def exDegenRules : String → Option StoredRule :=
  fun d => if d = "device1" then some (.multi exDegenerateRule) else none

/-- Rule environment mapping `device1` to the 08:00-18:00 Monday rule. -/
def exDayRules : String → Option StoredRule :=
  fun d => if d = "device1" then some (.multi exDayRule) else none

/-- Rule environment with no rule for any device. -/
def exNoRules : String → Option StoredRule := fun _ => none

/-- Rule environment mapping `device1` to a disabled copy of `exDayRule`. -/
def exDisabledRules : String → Option StoredRule :=
  fun d => if d = "device1" then some (.multi { exDayRule with enabled := false }) else none

/-- Building-state environment whose building is in LOCKDOWN mode. -/
def exModeStates : String → Option AutomationState :=
  fun b => if b = "building1" then some ⟨"turn-off-all", {"device1"}, ["device1"]⟩ else none

/-- Building-state environment in mode `"none"` but with `device1` locked. -/
def exLockedStates : String → Option AutomationState :=
  fun b => if b = "building1" then some ⟨"none", {"device1"}, ["device1"]⟩ else none

/-! Helper lemmas. -/

@[simp]
theorem updF_same {α : Type} (f : String → α) (k : String) (v : α) : updF f k v k = v := by
  simp [updF]

theorem updF_other {α : Type} (f : String → α) (k : String) (v : α) (x : String)
    (h : x ≠ k) : updF f k v x = f x := by
  simp [updF, h]

/-! C1: non-forced ON is rejected for locked devices and while disconnected;
force bypasses both checks. -/

/-- C1: for every state, `switch_device(dev, "ON", force := false)` returns
`False` and leaves the state untouched when the device sits in its building's
lock set; it likewise returns `False` untouched whenever the store is marked
disconnected (for any requested state); and with `force := true` the lock and
offline checks are bypassed — for a device that is in the building map and the
GPIO configuration the actuation proceeds: the call reports success and drives
the channel high. -/
theorem switch_device_lock_offline_force (s : Sys) (now : ℚ) (dev b : String) (w : ℚ) :
    (s.device_building_map dev = some b →
      dev ∈ ((s.building_automation_states b).getD defaultAutomationState).locked →
      switch_device s now dev "ON" false = (false, s))
    ∧ (s.firebase_connected = false →
      ∀ st, switch_device s now dev st false = (false, s))
    ∧ (s.device_building_map dev = some b → s.wattage dev = some w →
      (switch_device s now dev "ON" true).1 = true
        ∧ (switch_device s now dev "ON" true).2.gpio dev = true) := by
  refine ⟨?_, ?_, ?_⟩
  · intro hb hlock
    by_cases hc : s.firebase_connected = false
    · simp [switch_device, hc]
    · simp [switch_device, hc, hb, hlock]
  · intro hoff st
    simp [switch_device, hoff]
  · intro hb hw
    by_cases hc : s.firebase_connected = true
    · simp [switch_device, hb, hw, logEvent, hc]
    · simp [switch_device, hb, hw, logEvent, hc]

/-- Witness for C1 at the concrete states `exLockedSys` / `exOfflineSys`. -/
theorem switch_device_lock_offline_force_witness :
    switch_device exLockedSys 0 "device1" "ON" false = (false, exLockedSys)
    ∧ switch_device exOfflineSys 0 "device1" "ON" false = (false, exOfflineSys)
    ∧ (switch_device exLockedSys 0 "device1" "ON" true).2.gpio "device1" = true :=
  ⟨(switch_device_lock_offline_force exLockedSys 0 "device1" "building1" 20).1
      (by rfl) (by decide),
   (switch_device_lock_offline_force exOfflineSys 0 "device1" "building1" 20).2.1
      (by rfl) "ON",
   ((switch_device_lock_offline_force exLockedSys 0 "device1" "building1" 20).2.2
      (by rfl) (by rfl)).2⟩

/-! C4: the per-device event log is bounded by MAX_EVENT_HISTORY and an
insertion at the limit removes exactly the oldest entry. -/

theorem removeOldest_length (l : List LogEvent) (h : l ≠ []) :
    (removeOldest l).length + 1 = l.length := by
  induction l with
  | nil => exact absurd rfl h
  | cons e rest ih =>
    unfold removeOldest
    split
    · simp
    · rename_i hno
      have hne : rest ≠ [] := by
        rintro rfl
        exact hno (by simp)
      have := ih hne
      simp only [List.length_cons]
      omega

theorem removeOldest_spec (l : List LogEvent) (h : l ≠ []) :
    ∃ pre x post, l = pre ++ x :: post ∧ removeOldest l = pre ++ post
      ∧ ∀ y ∈ l, x.timestamp ≤ y.timestamp := by
  induction l with
  | nil => exact absurd rfl h
  | cons e rest ih =>
    by_cases hall : ∀ f ∈ rest, e.timestamp ≤ f.timestamp
    · refine ⟨[], e, rest, rfl, by unfold removeOldest; rw [if_pos hall]; simp, ?_⟩
      intro y hy
      rcases List.mem_cons.mp hy with rfl | hy'
      · exact le_refl _
      · exact hall y hy'
    · push_neg at hall
      obtain ⟨f, hf, hlt⟩ := hall
      have hne : rest ≠ [] := List.ne_nil_of_mem hf
      obtain ⟨pre, x, post, heq, hrm, hmin⟩ := ih hne
      refine ⟨e :: pre, x, post, by simp [heq], ?_, ?_⟩
      · have hno : ¬∀ g ∈ rest, e.timestamp ≤ g.timestamp := by
          intro hco
          exact absurd (hco f hf) (not_le.mpr hlt)
        unfold removeOldest
        rw [if_neg hno, hrm]
        simp
      · intro y hy
        rcases List.mem_cons.mp hy with rfl | hy'
        · exact le_of_lt (lt_of_le_of_lt (hmin f hf) hlt)
        · exact hmin y hy'

theorem log_device_event_length_le (log : List LogEvent) (e : LogEvent)
    (h : log.length ≤ MAX_EVENT_HISTORY) :
    (log_device_event log e).length ≤ MAX_EVENT_HISTORY := by
  unfold log_device_event
  split
  · rename_i hge
    have hlen : log.length = MAX_EVENT_HISTORY := le_antisymm h hge
    have hne : log ≠ [] := by
      rintro rfl
      simp [MAX_EVENT_HISTORY] at hlen
    have := removeOldest_length log hne
    simp only [List.length_append, List.length_cons, List.length_nil]
    omega
  · simp only [List.length_append, List.length_cons, List.length_nil]
    omega

/-- C4: starting from any log within the bound (in particular the empty log),
after any sequence of `log_device_event` insertions the per-device event log
never holds more than `MAX_EVENT_HISTORY = 30` entries; and an insertion made
when the log is exactly at the limit removes exactly one entry — the oldest by
timestamp — before appending the new event, leaving the log at the limit. -/
theorem log_device_event_bound (init : List LogEvent) (evs : List LogEvent)
    (hinit : init.length ≤ MAX_EVENT_HISTORY) :
    (evs.foldl log_device_event init).length ≤ MAX_EVENT_HISTORY
    ∧ ∀ log e, log.length = MAX_EVENT_HISTORY →
        (log_device_event log e).length = MAX_EVENT_HISTORY
        ∧ ∃ pre x post, log = pre ++ x :: post
            ∧ log_device_event log e = (pre ++ post) ++ [e]
            ∧ ∀ y ∈ log, x.timestamp ≤ y.timestamp := by
  constructor
  · induction evs generalizing init with
    | nil => exact hinit
    | cons e rest ih =>
      exact ih (log_device_event init e) (log_device_event_length_le init e hinit)
  · intro log e hlen
    have hne : log ≠ [] := by
      rintro rfl
      simp [MAX_EVENT_HISTORY] at hlen
    obtain ⟨pre, x, post, heq, hrm, hmin⟩ := removeOldest_spec log hne
    have hcond : MAX_EVENT_HISTORY ≤ log.length := le_of_eq hlen.symm
    have hev : log_device_event log e = removeOldest log ++ [e] := by
      unfold log_device_event
      exact if_pos hcond
    refine ⟨?_, pre, x, post, heq, by rw [hev, hrm], hmin⟩
    rw [hev]
    have := removeOldest_length log hne
    simp only [List.length_append, List.length_cons, List.length_nil]
    omega

/-- Witness for C4: inserting 30 events into the empty log stays within the
bound, and one insertion into the full `exFullLog` trims exactly the oldest
entry. -/
theorem log_device_event_bound_witness :
    (exFullLog.foldl log_device_event []).length ≤ MAX_EVENT_HISTORY
    ∧ ((log_device_event exFullLog ⟨"OFF", 99⟩).length = MAX_EVENT_HISTORY
        ∧ ∃ pre x post, exFullLog = pre ++ x :: post
            ∧ log_device_event exFullLog ⟨"OFF", 99⟩ = (pre ++ post) ++ [⟨"OFF", 99⟩]
            ∧ ∀ y ∈ exFullLog, x.timestamp ≤ y.timestamp) :=
  ⟨(log_device_event_bound [] exFullLog (by decide)).1,
   (log_device_event_bound [] exFullLog (by decide)).2 exFullLog ⟨"OFF", 99⟩ (by decide)⟩

/-! C8: rules produced by the miner always start disabled. -/

theorem analyze_enabled_aux (evs : List MEvent) (r : Rule)
    (h : analyze_device_patterns_multi_stage evs = some r) : r.enabled = false := by
  unfold analyze_device_patterns_multi_stage at h
  split at h
  · exact absurd h (by simp)
  · split at h
    · exact absurd h (by simp)
    · cases Option.some.inj h
      rfl

/-- C8: every rule emitted by `analyze_device_patterns_multi_stage` has
`enabled = false`, and hence every rule document recorded by
`generate_automation_rules` is disabled; no input event history produces an
enabled rule. -/
theorem miner_rules_start_disabled (evs : List MEvent) (r : Rule)
    (devices : List String) (mapped : String → Bool) (history : String → List MEvent)
    (d : String) (rr : Rule) :
    (analyze_device_patterns_multi_stage evs = some r → r.enabled = false)
    ∧ ((d, rr) ∈ generate_automation_rules devices mapped history → rr.enabled = false) := by
  constructor
  · exact analyze_enabled_aux evs r
  · intro hmem
    unfold generate_automation_rules at hmem
    rw [List.mem_filterMap] at hmem
    obtain ⟨a, _, hfa⟩ := hmem
    by_cases hm : mapped a = true
    · rw [if_pos hm] at hfa
      obtain ⟨r0, hr0, hpair⟩ := Option.map_eq_some'.mp hfa
      have : rr = r0 := by
        cases hpair
        rfl
      rw [this]
      exact analyze_enabled_aux (history a) r0 hr0
    · rw [if_neg hm] at hfa
      exact absurd hfa (by simp)

/-- Witness for C8 at the concrete window `ex5Events`. -/
theorem miner_rules_start_disabled_witness :
    ex5Rule.enabled = false ∧ ex5Rule.enabled = false :=
  ⟨(miner_rules_start_disabled ex5Events ex5Rule ["device1"] (fun _ => true)
      (fun _ => ex5Events) "device1" ex5Rule).1 (by decide),
   (miner_rules_start_disabled ex5Events ex5Rule ["device1"] (fun _ => true)
      (fun _ => ex5Events) "device1" ex5Rule).2 (by decide)⟩

/-! C5: insufficient-data behaviour of the miner. -/

/-- Counterexample for C5: `ex5Events` holds four events of which only one is
OFF, so under the claim's qualifying condition (at least 2 ON and at least
2 OFF) the window has fewer than four qualifying events, yet the miner emits a
rule rather than the claimed `none`. -/
theorem analyze_insufficient_cx :
    (ex5Events.filter (fun e => e.status = "OFF")).length = 1
    ∧ ex5Events.length = 4
    ∧ analyze_device_patterns_multi_stage ex5Events = some ex5Rule := by decide

/-- C5 amended: the miner returns `none` (a no-op outcome, not an error)
exactly on a raw-count test — whenever the window holds fewer than four events
of any composition — and `generate_automation_rules` writes no rule document
for a device whose analysis returns `none`; the 2-ON/2-OFF composition of the
four events is not checked. -/
theorem analyze_insufficient_data (evs : List MEvent)
    (devices : List String) (mapped : String → Bool) (history : String → List MEvent)
    (d : String) :
    (evs.length < 4 → analyze_device_patterns_multi_stage evs = none)
    ∧ (analyze_device_patterns_multi_stage (history d) = none →
        ∀ r, (d, r) ∉ generate_automation_rules devices mapped history) := by
  constructor
  · intro h
    unfold analyze_device_patterns_multi_stage
    rw [if_pos h]
  · intro hnone r hmem
    unfold generate_automation_rules at hmem
    rw [List.mem_filterMap] at hmem
    obtain ⟨a, _, hfa⟩ := hmem
    by_cases hm : mapped a = true
    · rw [if_pos hm] at hfa
      obtain ⟨r0, hr0, hpair⟩ := Option.map_eq_some'.mp hfa
      have had : a = d := congrArg Prod.fst hpair
      rw [had] at hr0
      rw [hnone] at hr0
      exact absurd hr0 (by simp)
    · rw [if_neg hm] at hfa
      exact absurd hfa (by simp)

/-- Witness for C5 at the one-event window `exShortEvents`. -/
theorem analyze_insufficient_data_witness :
    analyze_device_patterns_multi_stage exShortEvents = none
    ∧ ("device1", ex5Rule) ∉ generate_automation_rules ["device1"] (fun _ => true)
        (fun _ => exShortEvents) :=
  ⟨(analyze_insufficient_data exShortEvents ["device1"] (fun _ => true)
      (fun _ => exShortEvents) "device1").1 (by decide),
   (analyze_insufficient_data exShortEvents ["device1"] (fun _ => true)
      (fun _ => exShortEvents) "device1").2 (by decide) ex5Rule⟩

/-! C6: session partitioning behaviour. -/

theorem sessionsAux_mem_length (gap : Nat) :
    ∀ evs cur sess, sess ∈ sessionsAux gap evs cur → 2 ≤ sess.length := by
  intro evs
  induction evs with
  | nil =>
    intro cur sess h
    unfold sessionsAux at h
    split at h
    · rename_i hc
      rw [List.mem_singleton] at h
      rw [h, List.length_reverse]
      exact hc
    · exact absurd h (List.not_mem_nil sess)
  | cons e rest ih =>
    intro cur sess h
    cases cur with
    | nil =>
      unfold sessionsAux at h
      exact ih [e] sess h
    | cons last curRest =>
      unfold sessionsAux at h
      split at h
      · exact ih [e] sess h
      · split at h
        · exact ih (e :: last :: curRest) sess h
        · rw [List.mem_append] at h
          rcases h with h | h
          · split at h
            · rename_i hc
              rw [List.mem_singleton] at h
              rw [h, List.length_reverse]
              exact hc
            · exact absurd h (List.not_mem_nil sess)
          · exact ih [e] sess h

/-- Counterexample for C6: events at minutes 0, 10 and 40 with the 15-minute
gap threshold yield exactly ONE session (the lone trailing event at minute 40
is dropped because a flushed run needs at least two events), not the two
sessions the claim states; moreover the one kept session consists of two ON
events and no OFF, although the claim says a run counts as a valid session
exactly when it has at least one ON and one OFF. -/
theorem group_sessions_cx :
    group_events_into_sessions ex6Events 15 = [[⟨"ON", 0⟩, ⟨"ON", 10⟩]]
    ∧ (group_events_into_sessions ex6Events 15).length = 1
    ∧ ((group_events_into_sessions ex6Events 15).head!.filter
        (fun e => e.status = "OFF")).length = 0 := by decide

/-- C6 amended: with events at minutes 0, 10, 40 and a 15-minute threshold the
partition returns exactly the one session `{0, 10}`; a lone unmatched event
never forms a returned session (every returned session holds at least two
events); and a run is kept precisely by its event count — at least two events
of any status mix, as the two-ON run shows — not by containing both an ON and
an OFF. -/
theorem group_sessions_amended (evs : List MEvent) (gap : Nat) (sess : List MEvent) :
    group_events_into_sessions ex6Events 15 = [[⟨"ON", 0⟩, ⟨"ON", 10⟩]]
    ∧ (sess ∈ group_events_into_sessions evs gap → 2 ≤ sess.length)
    ∧ group_events_into_sessions [⟨"ON", 0⟩, ⟨"ON", 10⟩] 15 = [[⟨"ON", 0⟩, ⟨"ON", 10⟩]] := by
  refine ⟨by decide, ?_, by decide⟩
  intro h
  exact sessionsAux_mem_length gap (sortByTimestamp evs) [] sess h

/-- Witness for C6: the returned session of the 0/10/40 example indeed holds
two events. -/
theorem group_sessions_amended_witness :
    2 ≤ ([⟨"ON", 0⟩, ⟨"ON", 10⟩] : List MEvent).length :=
  (group_sessions_amended ex6Events 15 [⟨"ON", 0⟩, ⟨"ON", 10⟩]).2.1 (by decide)

/-! C10: the per-day stage cap is not enforced by the miner. -/

/-- C10: `MAX_STAGES_PER_DAY = 3` is declared but never enforced: on the
window `ex10Events` the miner emits a rule whose Monday schedule entry holds
four stages. -/
theorem max_stages_not_enforced :
    MAX_STAGES_PER_DAY = 3
    ∧ analyze_device_patterns_multi_stage ex10Events = some ex10Rule
    ∧ ∃ p ∈ ex10Rule.schedules, MAX_STAGES_PER_DAY < p.2.length := by decide

/-! C7: template-day selection and per-day schedule entries. -/

theorem pickTemplate_spec (evs : List MEvent) :
    ∀ (rest : List (String × List Stage)) (p : String × List Stage),
      pickTemplate evs p rest ∈ p :: rest
      ∧ ∀ q ∈ p :: rest, rawCountOn evs q.1 ≤ rawCountOn evs (pickTemplate evs p rest).1 := by
  intro rest
  induction rest with
  | nil =>
    intro p
    refine ⟨List.mem_singleton.mpr rfl, ?_⟩
    intro q hq
    rw [List.mem_singleton] at hq
    rw [hq]
    exact le_refl _
  | cons q0 rest ih =>
    intro p
    have hfold : pickTemplate evs p (q0 :: rest)
        = pickTemplate evs (if rawCountOn evs p.1 < rawCountOn evs q0.1 then q0 else p) rest := rfl
    obtain ⟨hmem, hmax⟩ := ih (if rawCountOn evs p.1 < rawCountOn evs q0.1 then q0 else p)
    constructor
    · rw [hfold]
      rcases List.mem_cons.mp hmem with he | hr
      · rw [he]
        by_cases hc : rawCountOn evs p.1 < rawCountOn evs q0.1
        · rw [if_pos hc]
          exact List.mem_cons_of_mem _ (List.mem_cons_self _ _)
        · rw [if_neg hc]
          exact List.mem_cons_self _ _
      · exact List.mem_cons_of_mem _ (List.mem_cons_of_mem _ hr)
    · intro q hq
      rw [hfold]
      have hp : rawCountOn evs p.1
          ≤ rawCountOn evs (if rawCountOn evs p.1 < rawCountOn evs q0.1 then q0 else p).1 := by
        by_cases hc : rawCountOn evs p.1 < rawCountOn evs q0.1
        · rw [if_pos hc]
          exact le_of_lt hc
        · rw [if_neg hc]
      have hq0 : rawCountOn evs q0.1
          ≤ rawCountOn evs (if rawCountOn evs p.1 < rawCountOn evs q0.1 then q0 else p).1 := by
        by_cases hc : rawCountOn evs p.1 < rawCountOn evs q0.1
        · rw [if_pos hc]
        · rw [if_neg hc]
          exact le_of_not_lt hc
      have hite := hmax _ (List.mem_cons_self _ _)
      rcases List.mem_cons.mp hq with rfl | hq'
      · exact le_trans hp hite
      · rcases List.mem_cons.mp hq' with rfl | hq2
        · exact le_trans hq0 hite
        · exact hmax q (List.mem_cons_of_mem _ hq2)

/-- Counterexample for C7: in `ex7Events` the day with the most raw events is
Monday (five events against Tuesday's two), but Monday produced no stages, and
the emitted rule's Monday entry carries Tuesday's stages — so the template the
code uses is not the day with the most raw events, contrary to the claim. -/
theorem analyze_template_cx :
    claimTemplateDay ex7Events = some "Monday"
    ∧ lookupStages (daySchedulesOf ex7Events) "Monday" = none
    ∧ rawCountOn ex7Events "Tuesday" < rawCountOn ex7Events "Monday"
    ∧ analyze_device_patterns_multi_stage ex7Events = some ex7Rule
    ∧ lookupStages ex7Rule.schedules "Monday" = some [⟨"08:00", "09:00"⟩]
    ∧ lookupStages (daySchedulesOf ex7Events) "Tuesday" = some [⟨"08:00", "09:00"⟩] := by
  decide

/-- C7 amended: when a rule is produced, it carries one schedule entry per
active day (sorted by day name), and there is a template entry chosen among
the days that produced at least one stage — maximal there by raw event count —
such that every schedule entry carries the day's own mined stages, or the
template's stages when the day produced none. -/
theorem analyze_template_amended (evs : List MEvent) (r : Rule)
    (h : analyze_device_patterns_multi_stage evs = some r) :
    r.schedules.map Prod.fst = sortedActiveDays evs
    ∧ ∃ best ∈ daySchedulesOf evs,
        (∀ q ∈ daySchedulesOf evs, rawCountOn evs q.1 ≤ rawCountOn evs best.1)
        ∧ ∀ p ∈ r.schedules,
            lookupStages (daySchedulesOf evs) p.1 = some p.2
            ∨ (lookupStages (daySchedulesOf evs) p.1 = none ∧ p.2 = best.2) := by
  unfold analyze_device_patterns_multi_stage at h
  split at h
  · exact absurd h (by simp)
  · split at h
    · exact absurd h (by simp)
    · rename_i p rest heq
      cases Option.some.inj h
      obtain ⟨hmem, hmax⟩ := pickTemplate_spec evs rest p
      constructor
      · rw [List.map_map]
        exact List.map_id _
      · refine ⟨pickTemplate evs p rest, ?_, ?_, ?_⟩
        · rw [heq]
          exact hmem
        · intro q hq
          rw [heq] at hq
          exact hmax q hq
        · intro pr hpr
          simp only [List.mem_map] at hpr
          obtain ⟨day, _, rfl⟩ := hpr
          rw [heq]
          cases hl : lookupStages (p :: rest) day with
          | none => exact Or.inr ⟨rfl, rfl⟩
          | some st => exact Or.inl rfl

/-- Witness for C7 at the concrete window `ex7Events`. -/
theorem analyze_template_amended_witness :
    ex7Rule.schedules.map Prod.fst = sortedActiveDays ex7Events
    ∧ ∃ best ∈ daySchedulesOf ex7Events,
        (∀ q ∈ daySchedulesOf ex7Events, rawCountOn ex7Events q.1 ≤ rawCountOn ex7Events best.1)
        ∧ ∀ p ∈ ex7Rule.schedules,
            lookupStages (daySchedulesOf ex7Events) p.1 = some p.2
            ∨ (lookupStages (daySchedulesOf ex7Events) p.1 = none ∧ p.2 = best.2) :=
  analyze_template_amended ex7Events ex7Rule (by decide)

/-! C9: executor skip conditions and exact-match triggering. -/

theorem mem_stageActions_on (hour : String) (st : Stage) :
    "ON" ∈ stageActions hour st ↔ hour = st.start := by
  unfold stageActions
  split
  · rename_i hc
    simp [hc]
  · split
    · rename_i hns _
      simp [hns]
    · rename_i hns _
      simp [hns]

theorem mem_stageActions_off (hour : String) (st : Stage) :
    "OFF" ∈ stageActions hour st ↔ hour = st.stop ∧ hour ≠ st.start := by
  unfold stageActions
  split
  · rename_i hc
    simp [hc]
  · split
    · rename_i hns hc
      constructor
      · intro _
        exact ⟨hc, hns⟩
      · intro _
        exact List.mem_singleton.mpr rfl
    · rename_i hns hc
      simp [hns, hc]

/-- Counterexample for C9: a stored enabled multi-stage rule whose Monday
stage is the degenerate 08:00-08:00; at hour 08:00 the current time equals the
stage's end, yet the executor triggers ON and not OFF (the `elif` gives the
start-match precedence), so "OFF exactly when the time equals a stage's end"
fails. -/
theorem execute_rules_degenerate_cx :
    execute_automation_rules_for true exExecMap exExecStates exDegenRules
      "device1" "08:00" "Monday" = ["ON"]
    ∧ "OFF" ∉ execute_automation_rules_for true exExecMap exExecStates exDegenRules
        "device1" "08:00" "Monday"
    ∧ lookupStages exDegenerateRule.schedules "Monday" = some [⟨"08:00", "08:00"⟩] := by
  decide

/-- C9 amended: on a tick the executor skips a device whose building mode is
not `"none"`, skips a locked device, skips when no rule or no enabled rule
exists; for an enabled multi-stage rule it locates today's schedule entry by
day name and triggers ON exactly when the current hour equals a stage's start,
and OFF exactly when the current hour equals a stage's end AND differs from
that stage's start (the ON branch takes precedence inside one stage). -/
theorem execute_rules_amended (connected : Bool) (dBM : String → Option String)
    (bStates : String → Option AutomationState) (rules : String → Option StoredRule)
    (dev hour day b : String) (mr : Rule) (stages : List Stage) :
    (dBM dev = some b → ((bStates b).getD defaultAutomationState).mode ≠ "none" →
      execute_automation_rules_for connected dBM bStates rules dev hour day = [])
    ∧ (dBM dev = some b → dev ∈ ((bStates b).getD defaultAutomationState).locked →
      execute_automation_rules_for connected dBM bStates rules dev hour day = [])
    ∧ (rules dev = none →
      execute_automation_rules_for connected dBM bStates rules dev hour day = [])
    ∧ (∀ r, rules dev = some r → storedEnabled r = false →
      execute_automation_rules_for connected dBM bStates rules dev hour day = [])
    ∧ (connected = true → dBM dev = some b →
      ((bStates b).getD defaultAutomationState).mode = "none" →
      dev ∉ ((bStates b).getD defaultAutomationState).locked →
      rules dev = some (.multi mr) → mr.enabled = true → mr.multiStage = true →
      lookupStages mr.schedules day = some stages →
      (("ON" ∈ execute_automation_rules_for connected dBM bStates rules dev hour day
          ↔ ∃ st ∈ stages, hour = st.start)
        ∧ ("OFF" ∈ execute_automation_rules_for connected dBM bStates rules dev hour day
          ↔ ∃ st ∈ stages, hour = st.stop ∧ hour ≠ st.start))) := by
  refine ⟨?_, ?_, ?_, ?_, ?_⟩
  · intro hb hmode
    unfold execute_automation_rules_for
    by_cases hc : connected = false
    · rw [if_pos hc]
    · rw [if_neg hc, hb]
      simp [hmode]
  · intro hb hlock
    unfold execute_automation_rules_for
    by_cases hc : connected = false
    · rw [if_pos hc]
    · rw [if_neg hc, hb]
      by_cases hmode : ((bStates b).getD defaultAutomationState).mode ≠ "none"
      · simp [hmode]
      · simp [hmode, hlock]
  · intro hr
    unfold execute_automation_rules_for
    by_cases hc : connected = false
    · rw [if_pos hc]
    · rw [if_neg hc]
      cases hb : dBM dev with
      | none => rfl
      | some b2 =>
        by_cases hmode : ((bStates b2).getD defaultAutomationState).mode ≠ "none"
        · simp [hmode]
        · by_cases hlock : dev ∈ ((bStates b2).getD defaultAutomationState).locked
          · simp [hmode, hlock]
          · simp [hmode, hlock, hr]
  · intro r hr hen
    unfold execute_automation_rules_for
    by_cases hc : connected = false
    · rw [if_pos hc]
    · rw [if_neg hc]
      cases hb : dBM dev with
      | none => rfl
      | some b2 =>
        by_cases hmode : ((bStates b2).getD defaultAutomationState).mode ≠ "none"
        · simp [hmode]
        · by_cases hlock : dev ∈ ((bStates b2).getD defaultAutomationState).locked
          · simp [hmode, hlock]
          · simp [hmode, hlock, hr, hen]
  · intro hc hb hmode hlock hr hen hms hsched
    have hexec : execute_automation_rules_for connected dBM bStates rules dev hour day
        = stages.flatMap (stageActions hour) := by
      unfold execute_automation_rules_for
      rw [hc, hb]
      simp [hmode, hlock, hr, storedEnabled, hen, hms, execute_multi_stage_rule, hsched]
    rw [hexec]
    constructor
    · rw [List.mem_flatMap]
      constructor
      · rintro ⟨st, hst, hmem⟩
        exact ⟨st, hst, (mem_stageActions_on hour st).mp hmem⟩
      · rintro ⟨st, hst, heq⟩
        exact ⟨st, hst, (mem_stageActions_on hour st).mpr heq⟩
    · rw [List.mem_flatMap]
      constructor
      · rintro ⟨st, hst, hmem⟩
        exact ⟨st, hst, (mem_stageActions_off hour st).mp hmem⟩
      · rintro ⟨st, hst, hoff⟩
        exact ⟨st, hst, (mem_stageActions_off hour st).mpr hoff⟩

/-- Witness for C9: each of the four skip conditions fires on its concrete
environment, and the enabled 08:00-18:00 Monday rule triggers OFF at exactly
18:00. -/
theorem execute_rules_amended_witness :
    execute_automation_rules_for true exExecMap exModeStates exDayRules
      "device1" "18:00" "Monday" = []
    ∧ execute_automation_rules_for true exExecMap exLockedStates exDayRules
        "device1" "18:00" "Monday" = []
    ∧ execute_automation_rules_for true exExecMap exExecStates exNoRules
        "device1" "18:00" "Monday" = []
    ∧ execute_automation_rules_for true exExecMap exExecStates exDisabledRules
        "device1" "18:00" "Monday" = []
    ∧ "OFF" ∈ execute_automation_rules_for true exExecMap exExecStates exDayRules
        "device1" "18:00" "Monday" :=
  ⟨(execute_rules_amended true exExecMap exModeStates exDayRules
      "device1" "18:00" "Monday" "building1" exDayRule []).1 (by rfl) (by decide),
   (execute_rules_amended true exExecMap exLockedStates exDayRules
      "device1" "18:00" "Monday" "building1" exDayRule []).2.1 (by rfl) (by decide),
   (execute_rules_amended true exExecMap exExecStates exNoRules
      "device1" "18:00" "Monday" "building1" exDayRule []).2.2.1 (by rfl),
   (execute_rules_amended true exExecMap exExecStates exDisabledRules
      "device1" "18:00" "Monday" "building1" exDayRule []).2.2.2.1
      (.multi { exDayRule with enabled := false }) (by rfl) (by rfl),
   ((execute_rules_amended true exExecMap exExecStates exDayRules
      "device1" "18:00" "Monday" "building1" exDayRule [⟨"08:00", "18:00"⟩]).2.2.2.2
      (by rfl) (by rfl) (by rfl) (by decide) (by rfl) (by rfl) (by rfl) (by decide)).2.mpr
      ⟨⟨"08:00", "18:00"⟩, by decide, rfl, by decide⟩⟩

/-! C2: energy accrual on ON/OFF cycles. -/

theorem switch_on_snd (s : Sys) (now : ℚ) (dev b : String) (w : ℚ)
    (hc : s.firebase_connected = true) (hb : s.device_building_map dev = some b)
    (hw : s.wattage dev = some w)
    (hlock : dev ∉ ((s.building_automation_states b).getD defaultAutomationState).locked) :
    (switch_device s now dev "ON" false).2 =
      { s with
        gpio := updF s.gpio dev true,
        device_on_timestamps := updF s.device_on_timestamps dev (some now),
        device_last_energy_update_time := updF s.device_last_energy_update_time dev (some now),
        eventHistory := updF s.eventHistory dev
          (log_device_event (s.eventHistory dev) ⟨"ON", now⟩) } := by
  unfold switch_device logEvent
  rw [hb]
  simp [hc, hw, hlock]

theorem switch_off_snd (s : Sys) (now : ℚ) (dev b : String) (w t0 lt : ℚ)
    (hc : s.firebase_connected = true) (hb : s.device_building_map dev = some b)
    (hw : s.wattage dev = some w)
    (hon : s.device_on_timestamps dev = some t0)
    (hlast : s.device_last_energy_update_time dev = some lt) :
    (switch_device s now dev "OFF" false).2 =
      { s with
        gpio := updF s.gpio dev false,
        device_on_timestamps := updF s.device_on_timestamps dev none,
        device_last_energy_update_time := updF s.device_last_energy_update_time dev none,
        eventHistory := updF s.eventHistory dev
          (log_device_event (s.eventHistory dev) ⟨"OFF", now⟩),
        dailyUsage := updF s.dailyUsage dev
          (s.dailyUsage dev + calculate_energy (now - lt) w) } := by
  unfold switch_device logEvent update_daily_energy
  rw [hb]
  simp [hc, hw, hon, hlast]

theorem periodic_tick_eq (s : Sys) (now : ℚ) (dev : String) (t0 lt w : ℚ)
    (hc : s.firebase_connected = true) (hon : s.device_on_timestamps dev = some t0)
    (hlast : s.device_last_energy_update_time dev = some lt) (hw : s.wattage dev = some w)
    (helapsed : periodic_interval_minutes ≤ now - lt) :
    periodic_update_tick s now dev =
      { s with
        dailyUsage := updF s.dailyUsage dev
          (s.dailyUsage dev + calculate_energy (now - lt) w),
        device_last_energy_update_time := updF s.device_last_energy_update_time dev (some now) } := by
  unfold periodic_update_tick update_daily_energy
  rw [hon, hlast, hw]
  simp [hc, helapsed]

/-- Counterexample for C2: wattage 20 W, ON at minute 0. OFF at minute 1
(d = 1/60 h).  The claim predicts an increment of exactly
w/1000 × d = 1/3000 kWh, but `calculate_energy` rounds to six decimal places
(`round(..., 6)`), so the recorded Daily Usage is 333/1000000 ≠ 1/3000. -/
theorem energy_rounding_cx :
    (switch_device (switch_device exFreeSys 0 "device1" "ON" false).2
        1 "device1" "OFF" false).2.dailyUsage "device1"
      ≠ 20 / 1000 * (1 / 60) := by
  have h1 := switch_on_snd exFreeSys 0 "device1" "building1" 20 rfl rfl rfl (by decide)
  set s1 := (switch_device exFreeSys 0 "device1" "ON" false).2 with hs1
  have hc1 : s1.firebase_connected = true := by
    simp only [h1]
    rfl
  have hb1 : s1.device_building_map "device1" = some "building1" := by
    simp only [h1]
    rfl
  have hw1 : s1.wattage "device1" = some 20 := by
    simp only [h1]
    rfl
  have hon1 : s1.device_on_timestamps "device1" = some 0 := by
    simp only [h1]
    exact updF_same _ _ _
  have hlast1 : s1.device_last_energy_update_time "device1" = some 0 := by
    simp only [h1]
    exact updF_same _ _ _
  have hu1 : s1.dailyUsage = exFreeSys.dailyUsage := by simp only [h1]
  rw [switch_off_snd s1 1 "device1" "building1" 20 0 0 hc1 hb1 hw1 hon1 hlast1]
  simp only [updF_same]
  have h6 : Int.fdiv 1000 3 = 333 := by decide
  unfold calculate_energy round6 roundHalfEven ratFloor
  norm_num [hu1, exFreeSys, h6]

/-- C2 amended: a non-forced ON at `t0` followed by OFF at `t1` (minutes, so a
duration of d = (t1-t0)/60 hours) increases the device's Daily Usage value by
exactly `calculate_energy (t1-t0) w` — that is, by w/1000 × d ROUNDED
half-to-even to six decimal places, the code's `round(..., 6)` — rather than
by the exact product; the quanta of a periodic accrual tick and of further
ON/OFF cycles are each rounded the same way and then added exactly. -/
theorem energy_accrual_amended (s : Sys) (t0 tm t1 t2 t3 : ℚ) (dev b : String) (w : ℚ)
    (hc : s.firebase_connected = true) (hb : s.device_building_map dev = some b)
    (hw : s.wattage dev = some w)
    (hlock : dev ∉ ((s.building_automation_states b).getD defaultAutomationState).locked)
    (htm : periodic_interval_minutes ≤ tm - t0) :
    ((switch_device (switch_device s t0 dev "ON" false).2 t1 dev "OFF" false).2.dailyUsage dev
      = s.dailyUsage dev + calculate_energy (t1 - t0) w)
    ∧ ((switch_device (periodic_update_tick
          (switch_device s t0 dev "ON" false).2 tm dev) t1 dev "OFF" false).2.dailyUsage dev
      = s.dailyUsage dev + calculate_energy (tm - t0) w + calculate_energy (t1 - tm) w)
    ∧ ((switch_device (switch_device (switch_device (switch_device s t0 dev "ON" false).2
          t1 dev "OFF" false).2 t2 dev "ON" false).2 t3 dev "OFF" false).2.dailyUsage dev
      = s.dailyUsage dev + calculate_energy (t1 - t0) w + calculate_energy (t3 - t2) w) := by
  have h1 := switch_on_snd s t0 dev b w hc hb hw hlock
  set s1 := (switch_device s t0 dev "ON" false).2 with hs1
  have hc1 : s1.firebase_connected = true := by
    simp only [h1]
    exact hc
  have hb1 : s1.device_building_map dev = some b := by
    simp only [h1]
    exact hb
  have hw1 : s1.wattage dev = some w := by
    simp only [h1]
    exact hw
  have hlock1 : dev ∉ ((s1.building_automation_states b).getD defaultAutomationState).locked := by
    simp only [h1]
    exact hlock
  have hon1 : s1.device_on_timestamps dev = some t0 := by
    simp only [h1]
    exact updF_same _ _ _
  have hlast1 : s1.device_last_energy_update_time dev = some t0 := by
    simp only [h1]
    exact updF_same _ _ _
  have hu1 : s1.dailyUsage = s.dailyUsage := by simp only [h1]
  refine ⟨?_, ?_, ?_⟩
  · rw [switch_off_snd s1 t1 dev b w t0 t0 hc1 hb1 hw1 hon1 hlast1]
    simp [updF_same, hu1]
  · have h2 := periodic_tick_eq s1 tm dev t0 t0 w hc1 hon1 hlast1 hw1 htm
    set s2 := periodic_update_tick s1 tm dev with hs2
    have hc2 : s2.firebase_connected = true := by
      simp only [h2]
      exact hc1
    have hb2 : s2.device_building_map dev = some b := by
      simp only [h2]
      exact hb1
    have hw2 : s2.wattage dev = some w := by
      simp only [h2]
      exact hw1
    have hon2 : s2.device_on_timestamps dev = some t0 := by
      simp only [h2]
      exact hon1
    have hlast2 : s2.device_last_energy_update_time dev = some tm := by
      simp only [h2]
      exact updF_same _ _ _
    have hu2 : s2.dailyUsage dev = s.dailyUsage dev + calculate_energy (tm - t0) w := by
      simp only [h2]
      simp [updF_same, hu1]
    rw [switch_off_snd s2 t1 dev b w t0 tm hc2 hb2 hw2 hon2 hlast2]
    simp [updF_same, hu2]
  · have h2 := switch_off_snd s1 t1 dev b w t0 t0 hc1 hb1 hw1 hon1 hlast1
    set s2 := (switch_device s1 t1 dev "OFF" false).2 with hs2
    have hc2 : s2.firebase_connected = true := by
      simp only [h2]
      exact hc1
    have hb2 : s2.device_building_map dev = some b := by
      simp only [h2]
      exact hb1
    have hw2 : s2.wattage dev = some w := by
      simp only [h2]
      exact hw1
    have hlock2 : dev ∉ ((s2.building_automation_states b).getD defaultAutomationState).locked := by
      simp only [h2]
      exact hlock1
    have hu2 : s2.dailyUsage dev = s.dailyUsage dev + calculate_energy (t1 - t0) w := by
      simp only [h2]
      simp [updF_same, hu1]
    have h3 := switch_on_snd s2 t2 dev b w hc2 hb2 hw2 hlock2
    set s3 := (switch_device s2 t2 dev "ON" false).2 with hs3
    have hc3 : s3.firebase_connected = true := by
      simp only [h3]
      exact hc2
    have hb3 : s3.device_building_map dev = some b := by
      simp only [h3]
      exact hb2
    have hw3 : s3.wattage dev = some w := by
      simp only [h3]
      exact hw2
    have hon3 : s3.device_on_timestamps dev = some t2 := by
      simp only [h3]
      exact updF_same _ _ _
    have hlast3 : s3.device_last_energy_update_time dev = some t2 := by
      simp only [h3]
      exact updF_same _ _ _
    have hu3 : s3.dailyUsage = s2.dailyUsage := by simp only [h3]
    rw [switch_off_snd s3 t3 dev b w t2 t2 hc3 hb3 hw3 hon3 hlast3]
    simp [updF_same, hu3, hu2]

/-- Witness for C2 at `exFreeSys`: ON at 0, tick at 5, OFF at 6, then a second
cycle ON at 7, OFF at 8. -/
theorem energy_accrual_amended_witness :
    ((switch_device (switch_device exFreeSys 0 "device1" "ON" false).2
        6 "device1" "OFF" false).2.dailyUsage "device1"
      = exFreeSys.dailyUsage "device1" + calculate_energy (6 - 0) 20)
    ∧ ((switch_device (periodic_update_tick
          (switch_device exFreeSys 0 "device1" "ON" false).2 5 "device1")
          6 "device1" "OFF" false).2.dailyUsage "device1"
      = exFreeSys.dailyUsage "device1" + calculate_energy (5 - 0) 20
          + calculate_energy (6 - 5) 20)
    ∧ ((switch_device (switch_device (switch_device
          (switch_device exFreeSys 0 "device1" "ON" false).2
          6 "device1" "OFF" false).2 7 "device1" "ON" false).2
          8 "device1" "OFF" false).2.dailyUsage "device1"
      = exFreeSys.dailyUsage "device1" + calculate_energy (6 - 0) 20
          + calculate_energy (8 - 7) 20) :=
  energy_accrual_amended exFreeSys 0 5 6 7 8 "device1" "building1" 20
    rfl rfl rfl (by decide) (by norm_num [periodic_interval_minutes])

/-! C3: LOCKDOWN turns every member device off, locks it, and is idempotent
on the automation state. -/

theorem switch_device_preserves (s : Sys) (now : ℚ) (dev st : String) (f : Bool) :
    (switch_device s now dev st f).2.firebase_connected = s.firebase_connected
    ∧ (switch_device s now dev st f).2.device_building_map = s.device_building_map
    ∧ (switch_device s now dev st f).2.wattage = s.wattage
    ∧ (switch_device s now dev st f).2.building_automation_states = s.building_automation_states
    ∧ (switch_device s now dev st f).2.device_type_map = s.device_type_map := by
  simp only [switch_device, logEvent, update_daily_energy]
  refine ⟨?_, ?_, ?_, ?_, ?_⟩ <;> (repeat' split) <;> simp

theorem switch_off_force_fields (s : Sys) (now : ℚ) (dev : String) :
    (Resolvable s dev →
      (switch_device s now dev "OFF" true).2.device_on_timestamps
          = updF s.device_on_timestamps dev none
        ∧ (switch_device s now dev "OFF" true).2.device_last_energy_update_time
            = updF s.device_last_energy_update_time dev none
        ∧ (switch_device s now dev "OFF" true).2.gpio = updF s.gpio dev false)
    ∧ (¬Resolvable s dev → (switch_device s now dev "OFF" true).2 = s) := by
  constructor
  · rintro ⟨hbm, hwm⟩
    obtain ⟨b, hb⟩ := Option.isSome_iff_exists.mp hbm
    obtain ⟨w, hw⟩ := Option.isSome_iff_exists.mp hwm
    unfold switch_device logEvent update_daily_energy
    rw [hb]
    by_cases hcf : s.firebase_connected = true
      <;> cases hon : s.device_on_timestamps dev
      <;> cases hlast : s.device_last_energy_update_time dev
      <;> simp [hw, hon, hlast, hcf]
  · intro hnr
    unfold switch_device
    cases hb : s.device_building_map dev with
    | none => simp
    | some b =>
      cases hw : s.wattage dev with
      | none => simp [hw]
      | some w =>
        exact absurd ⟨by rw [hb]; rfl, by rw [hw]; rfl⟩ hnr

theorem addLock_fields (s : Sys) (b d : String) :
    (addLock s b d).device_building_map = s.device_building_map
    ∧ (addLock s b d).wattage = s.wattage
    ∧ (addLock s b d).firebase_connected = s.firebase_connected
    ∧ (addLock s b d).device_on_timestamps = s.device_on_timestamps
    ∧ (addLock s b d).device_last_energy_update_time = s.device_last_energy_update_time
    ∧ (addLock s b d).gpio = s.gpio := by
  unfold addLock setBuilding
  cases s.building_automation_states b <;> simp

theorem addLock_bStates (s : Sys) (b d : String) (ast : AutomationState)
    (h : s.building_automation_states b = some ast) :
    (addLock s b d).building_automation_states
      = updF s.building_automation_states b (some { ast with locked := insert d ast.locked }) := by
  unfold addLock setBuilding
  rw [h]

theorem lockdownStep_fields (now : ℚ) (b : String) (s : Sys) (d : String) :
    (lockdownStep now b s d).device_building_map = s.device_building_map
    ∧ (lockdownStep now b s d).wattage = s.wattage
    ∧ (lockdownStep now b s d).firebase_connected = s.firebase_connected
    ∧ (Resolvable s d →
        (lockdownStep now b s d).device_on_timestamps = updF s.device_on_timestamps d none
        ∧ (lockdownStep now b s d).device_last_energy_update_time
            = updF s.device_last_energy_update_time d none
        ∧ (lockdownStep now b s d).gpio = updF s.gpio d false)
    ∧ (¬Resolvable s d →
        (lockdownStep now b s d).device_on_timestamps = s.device_on_timestamps
        ∧ (lockdownStep now b s d).device_last_energy_update_time
            = s.device_last_energy_update_time
        ∧ (lockdownStep now b s d).gpio = s.gpio)
    ∧ ∀ ast, s.building_automation_states b = some ast →
        (lockdownStep now b s d).building_automation_states
          = updF s.building_automation_states b
              (some { ast with locked := insert d ast.locked }) := by
  have hsw := switch_device_preserves s now d "OFF" true
  have haf := addLock_fields (switch_device s now d "OFF" true).2 b d
  have hoff := switch_off_force_fields s now d
  unfold lockdownStep
  refine ⟨?_, ?_, ?_, ?_, ?_, ?_⟩
  · rw [haf.1, hsw.2.1]
  · rw [haf.2.1, hsw.2.2.1]
  · rw [haf.2.2.1, hsw.1]
  · intro hr
    refine ⟨?_, ?_, ?_⟩
    · rw [haf.2.2.2.1]
      exact (hoff.1 hr).1
    · rw [haf.2.2.2.2.1]
      exact (hoff.1 hr).2.1
    · rw [haf.2.2.2.2.2]
      exact (hoff.1 hr).2.2
  · intro hr
    refine ⟨?_, ?_, ?_⟩
    · rw [haf.2.2.2.1, hoff.2 hr]
    · rw [haf.2.2.2.2.1, hoff.2 hr]
    · rw [haf.2.2.2.2.2, hoff.2 hr]
  · intro ast h
    rw [addLock_bStates _ b d ast (by rw [hsw.2.2.2.1]; exact h), hsw.2.2.2.1]

theorem mem_foldl_insert (ds : List String) (L : Finset String) (x : String) :
    x ∈ ds.foldl (fun acc d2 => insert d2 acc) L ↔ x ∈ ds ∨ x ∈ L := by
  induction ds generalizing L with
  | nil => simp
  | cons d rest ih =>
    simp only [List.foldl_cons, ih, Finset.mem_insert, List.mem_cons]
    tauto

theorem foldl_insert_idem (ds : List String) (L : Finset String) :
    ds.foldl (fun acc d2 => insert d2 acc) (ds.foldl (fun acc d2 => insert d2 acc) L)
      = ds.foldl (fun acc d2 => insert d2 acc) L := by
  apply Finset.ext
  intro x
  simp only [mem_foldl_insert]
  tauto

theorem updF_self {α : Type} (f : String → α) (k : String) (v : α) (h : f k = v) :
    updF f k v = f := by
  funext x
  unfold updF
  split
  · rename_i hx
    rw [hx, h]
  · rfl

theorem lockdownLoop_fields (now : ℚ) (b : String) :
    ∀ (ds : List String) (s : Sys),
      (ds.foldl (lockdownStep now b) s).device_building_map = s.device_building_map
      ∧ (ds.foldl (lockdownStep now b) s).wattage = s.wattage
      ∧ (ds.foldl (lockdownStep now b) s).firebase_connected = s.firebase_connected
      ∧ (∀ dev, dev ∈ ds → Resolvable s dev →
          (ds.foldl (lockdownStep now b) s).device_on_timestamps dev = none
          ∧ (ds.foldl (lockdownStep now b) s).device_last_energy_update_time dev = none
          ∧ (ds.foldl (lockdownStep now b) s).gpio dev = false)
      ∧ (∀ dev, (dev ∉ ds ∨ ¬Resolvable s dev) →
          (ds.foldl (lockdownStep now b) s).device_on_timestamps dev
              = s.device_on_timestamps dev
          ∧ (ds.foldl (lockdownStep now b) s).device_last_energy_update_time dev
              = s.device_last_energy_update_time dev
          ∧ (ds.foldl (lockdownStep now b) s).gpio dev = s.gpio dev)
      ∧ ∀ ast, s.building_automation_states b = some ast →
          (ds.foldl (lockdownStep now b) s).building_automation_states
            = updF s.building_automation_states b
                (some { ast with
                  locked := ds.foldl (fun L d2 => insert d2 L) ast.locked }) := by
  intro ds
  induction ds with
  | nil =>
    intro s
    refine ⟨rfl, rfl, rfl, ?_, ?_, ?_⟩
    · intro dev hmem
      exact absurd hmem (List.not_mem_nil dev)
    · intro dev _
      exact ⟨rfl, rfl, rfl⟩
    · intro ast h
      funext x
      unfold updF
      split
      · rename_i hx
        rw [hx]
        simp only [List.foldl_nil]
        rw [h]
      · rfl
  | cons d rest ih =>
    intro s
    simp only [List.foldl_cons]
    have hst := lockdownStep_fields now b s d
    obtain ⟨hm1, hw1, hc1, hclear1, hkeep1, hb1⟩ := hst
    obtain ⟨ihm, ihw, ihc, ihclear, ihkeep, ihb⟩ := ih (lockdownStep now b s d)
    have hR : ∀ dev, Resolvable (lockdownStep now b s d) dev ↔ Resolvable s dev := by
      intro dev
      unfold Resolvable
      rw [hm1, hw1]
    refine ⟨?_, ?_, ?_, ?_, ?_, ?_⟩
    · rw [ihm, hm1]
    · rw [ihw, hw1]
    · rw [ihc, hc1]
    · intro dev hmem hres
      by_cases hrest : dev ∈ rest
      · exact ihclear dev hrest ((hR dev).mpr hres)
      · have hd : dev = d := by
          rcases List.mem_cons.mp hmem with h | h
          · exact h
          · exact absurd h hrest
        subst hd
        obtain ⟨k1, k2, k3⟩ := ihkeep dev (Or.inl hrest)
        obtain ⟨c1, c2, c3⟩ := hclear1 hres
        exact ⟨by rw [k1, c1]; exact updF_same _ _ _,
               by rw [k2, c2]; exact updF_same _ _ _,
               by rw [k3, c3]; exact updF_same _ _ _⟩
    · intro dev hcond
      rcases hcond with hnm | hnr
      · have hnrest : dev ∉ rest := fun h => hnm (List.mem_cons_of_mem d h)
        have hnd : dev ≠ d := fun h => hnm (h ▸ List.mem_cons_self d rest)
        obtain ⟨k1, k2, k3⟩ := ihkeep dev (Or.inl hnrest)
        by_cases hrd : Resolvable s d
        · obtain ⟨c1, c2, c3⟩ := hclear1 hrd
          exact ⟨by rw [k1, c1]; exact updF_other _ _ _ _ hnd,
                 by rw [k2, c2]; exact updF_other _ _ _ _ hnd,
                 by rw [k3, c3]; exact updF_other _ _ _ _ hnd⟩
        · obtain ⟨c1, c2, c3⟩ := hkeep1 hrd
          exact ⟨by rw [k1, c1], by rw [k2, c2], by rw [k3, c3]⟩
      · obtain ⟨k1, k2, k3⟩ := ihkeep dev (Or.inr (fun h => hnr ((hR dev).mp h)))
        by_cases hrd : Resolvable s d
        · obtain ⟨c1, c2, c3⟩ := hclear1 hrd
          have hnd : dev ≠ d := fun h => hnr (h ▸ hrd)
          exact ⟨by rw [k1, c1]; exact updF_other _ _ _ _ hnd,
                 by rw [k2, c2]; exact updF_other _ _ _ _ hnd,
                 by rw [k3, c3]; exact updF_other _ _ _ _ hnd⟩
        · obtain ⟨c1, c2, c3⟩ := hkeep1 hrd
          exact ⟨by rw [k1, c1], by rw [k2, c2], by rw [k3, c3]⟩
    · intro ast h
      rw [ihb { ast with locked := insert d ast.locked }
            (by rw [hb1 ast h]; exact updF_same _ _ _)]
      rw [hb1 ast h]
      funext x
      unfold updF
      split
      · rfl
      · rfl

theorem apply_lockdown_fields (s : Sys) (now : ℚ) (b : String) (data : AutomationData)
    (ast : AutomationState) (hc : s.firebase_connected = true)
    (hb : s.building_automation_states b = some ast)
    (hm : data.turnOffAll = true ∨ data.currentMode = "turn-off-all") :
    (apply_building_automation s now b data).device_building_map = s.device_building_map
    ∧ (apply_building_automation s now b data).wattage = s.wattage
    ∧ (apply_building_automation s now b data).firebase_connected = s.firebase_connected
    ∧ (∀ dev, dev ∈ ast.devices → Resolvable s dev →
        (apply_building_automation s now b data).device_on_timestamps dev = none
        ∧ (apply_building_automation s now b data).device_last_energy_update_time dev = none
        ∧ (apply_building_automation s now b data).gpio dev = false)
    ∧ (∀ dev, (dev ∉ ast.devices ∨ ¬Resolvable s dev) →
        (apply_building_automation s now b data).device_on_timestamps dev
            = s.device_on_timestamps dev
        ∧ (apply_building_automation s now b data).device_last_energy_update_time dev
            = s.device_last_energy_update_time dev
        ∧ (apply_building_automation s now b data).gpio dev = s.gpio dev)
    ∧ (apply_building_automation s now b data).building_automation_states
        = updF s.building_automation_states b
            (some { mode := data.currentMode,
                    locked := ast.devices.foldl (fun L d2 => insert d2 L) ast.locked,
                    devices := ast.devices }) := by
  have hA : apply_building_automation s now b data
      = ast.devices.foldl (lockdownStep now b)
          (setBuilding s b { ast with mode := data.currentMode }) := by
    unfold apply_building_automation
    rw [hb]
    simp [hc, hm]
  obtain ⟨lm, lw, lc, lclear, lkeep, lb⟩ :=
    lockdownLoop_fields now b ast.devices (setBuilding s b { ast with mode := data.currentMode })
  have hs0b : (setBuilding s b { ast with mode := data.currentMode }).building_automation_states b
      = some { ast with mode := data.currentMode } := by
    simp [setBuilding, updF]
  refine ⟨?_, ?_, ?_, ?_, ?_, ?_⟩
  · rw [hA, lm]
    rfl
  · rw [hA, lw]
    rfl
  · rw [hA, lc]
    rfl
  · intro dev hd hres
    rw [hA]
    exact lclear dev hd hres
  · intro dev hcond
    rw [hA]
    exact lkeep dev hcond
  · rw [hA, lb { ast with mode := data.currentMode } hs0b]
    funext x
    unfold updF
    split
    · rfl
    · rename_i hx
      simp [setBuilding, updF, hx]

/-- C3: applying the LOCKDOWN (turn-off-all) intent to a building turns every
member device OFF (channel low, on-timestamp cleared) and puts every member
into the building's lock set; and applying the same LOCKDOWN twice in a row
leaves the automation state — mode, lock set, member list — and the per-device
timestamp maps (and channel levels) identical to applying it once. -/
theorem apply_lockdown_idempotent (s : Sys) (now now2 : ℚ) (b : String)
    (data : AutomationData) (ast : AutomationState)
    (hc : s.firebase_connected = true) (hb : s.building_automation_states b = some ast)
    (hm : data.turnOffAll = true ∨ data.currentMode = "turn-off-all")
    (hres : ∀ d ∈ ast.devices, Resolvable s d) :
    (apply_building_automation s now b data).building_automation_states b
      = some { mode := data.currentMode,
               locked := ast.devices.foldl (fun L d2 => insert d2 L) ast.locked,
               devices := ast.devices }
    ∧ (∀ d ∈ ast.devices,
        (apply_building_automation s now b data).gpio d = false
        ∧ (apply_building_automation s now b data).device_on_timestamps d = none
        ∧ d ∈ ast.devices.foldl (fun L d2 => insert d2 L) ast.locked)
    ∧ (apply_building_automation (apply_building_automation s now b data) now2 b data).building_automation_states
        = (apply_building_automation s now b data).building_automation_states
    ∧ (apply_building_automation (apply_building_automation s now b data) now2 b data).device_on_timestamps
        = (apply_building_automation s now b data).device_on_timestamps
    ∧ (apply_building_automation (apply_building_automation s now b data) now2 b data).device_last_energy_update_time
        = (apply_building_automation s now b data).device_last_energy_update_time
    ∧ (apply_building_automation (apply_building_automation s now b data) now2 b data).gpio
        = (apply_building_automation s now b data).gpio := by
  obtain ⟨h1m, h1w, h1c, h1clear, h1keep, h1b⟩ := apply_lockdown_fields s now b data ast hc hb hm
  set s1 := apply_building_automation s now b data with hs1
  have hR1 : ∀ dev, Resolvable s1 dev ↔ Resolvable s dev := by
    intro dev
    unfold Resolvable
    rw [h1m, h1w]
  have h1bb : s1.building_automation_states b
      = some { mode := data.currentMode,
               locked := ast.devices.foldl (fun L d2 => insert d2 L) ast.locked,
               devices := ast.devices } := by
    rw [h1b]
    exact updF_same _ _ _
  have hc1 : s1.firebase_connected = true := by rw [h1c]; exact hc
  obtain ⟨h2m, h2w, h2c, h2clear, h2keep, h2b⟩ :=
    apply_lockdown_fields s1 now2 b data _ hc1 h1bb hm
  refine ⟨h1bb, ?_, ?_, ?_, ?_, ?_⟩
  · intro d hd
    obtain ⟨con, clast, cg⟩ := h1clear d hd (hres d hd)
    exact ⟨cg, con, (mem_foldl_insert _ _ _).mpr (Or.inl hd)⟩
  · rw [h2b]
    have hlocked : ast.devices.foldl (fun L d2 => insert d2 L)
        (ast.devices.foldl (fun L d2 => insert d2 L) ast.locked)
          = ast.devices.foldl (fun L d2 => insert d2 L) ast.locked := foldl_insert_idem _ _
    rw [hlocked]
    exact updF_self _ _ _ h1bb
  · funext dev
    by_cases hd : dev ∈ ast.devices
    · have c2 := h2clear dev hd ((hR1 dev).mpr (hres dev hd))
      have c1 := h1clear dev hd (hres dev hd)
      rw [c2.1, c1.1]
    · have k2 := h2keep dev (Or.inl hd)
      exact k2.1
  · funext dev
    by_cases hd : dev ∈ ast.devices
    · have c2 := h2clear dev hd ((hR1 dev).mpr (hres dev hd))
      have c1 := h1clear dev hd (hres dev hd)
      rw [c2.2.1, c1.2.1]
    · have k2 := h2keep dev (Or.inl hd)
      exact k2.2.1
  · funext dev
    by_cases hd : dev ∈ ast.devices
    · have c2 := h2clear dev hd ((hR1 dev).mpr (hres dev hd))
      have c1 := h1clear dev hd (hres dev hd)
      rw [c2.2.2, c1.2.2]
    · have k2 := h2keep dev (Or.inl hd)
      exact k2.2.2

/-- Witness for C3 at the two-device building `exBuildingSys` (both devices
initially ON) with the LOCKDOWN intent `exLockdownData`. -/
theorem apply_lockdown_idempotent_witness :
    (apply_building_automation exBuildingSys 0 "building1" exLockdownData).building_automation_states "building1"
      = some { mode := "turn-off-all",
               locked := ["device1", "device2"].foldl (fun L d2 => insert d2 L) ∅,
               devices := ["device1", "device2"] }
    ∧ (∀ d ∈ ["device1", "device2"],
        (apply_building_automation exBuildingSys 0 "building1" exLockdownData).gpio d = false
        ∧ (apply_building_automation exBuildingSys 0 "building1" exLockdownData).device_on_timestamps d = none
        ∧ d ∈ ["device1", "device2"].foldl (fun L d2 => insert d2 L) (∅ : Finset String))
    ∧ (apply_building_automation (apply_building_automation exBuildingSys 0 "building1" exLockdownData)
          1 "building1" exLockdownData).building_automation_states
        = (apply_building_automation exBuildingSys 0 "building1" exLockdownData).building_automation_states
    ∧ (apply_building_automation (apply_building_automation exBuildingSys 0 "building1" exLockdownData)
          1 "building1" exLockdownData).device_on_timestamps
        = (apply_building_automation exBuildingSys 0 "building1" exLockdownData).device_on_timestamps
    ∧ (apply_building_automation (apply_building_automation exBuildingSys 0 "building1" exLockdownData)
          1 "building1" exLockdownData).device_last_energy_update_time
        = (apply_building_automation exBuildingSys 0 "building1" exLockdownData).device_last_energy_update_time
    ∧ (apply_building_automation (apply_building_automation exBuildingSys 0 "building1" exLockdownData)
          1 "building1" exLockdownData).gpio
        = (apply_building_automation exBuildingSys 0 "building1" exLockdownData).gpio :=
  apply_lockdown_idempotent exBuildingSys 0 1 "building1" exLockdownData
    ⟨"none", ∅, ["device1", "device2"]⟩ rfl rfl (Or.inl rfl)
    (by
      intro d hd
      rcases List.mem_cons.mp hd with rfl | hd2
      · exact ⟨rfl, rfl⟩
      · rcases List.mem_cons.mp hd2 with rfl | hd3
        · exact ⟨rfl, rfl⟩
        · exact absurd hd3 (List.not_mem_nil d))

end SISEOA
